import Mathlib

/-!
# Verification of the PC-BASIC screen-buffer core

A shallow embedding of the screen-buffer and cursor/viewport state machine of
`pcbasic/basic/display/pixels.py` and `pcbasic/basic/display/textscreen.py`,
together with theorems settling the specification claims about it.

Conventions of the embedding:
* Python integers become `Int` (coordinates can go negative during cursor
  correction) or `Nat` (character and attribute values).
* Stateful methods become pure state transformers `State → State` (or
  `State → Except (Error × State) State` for the BASIC callbacks that can
  raise; the error value carries the state at the moment of the raise).
* The external storage collaborators `ByteMatrix` (pixel grid) and `TextPage`
  (character rows) are not part of the sources; they are modelled from the
  specification, as documented on each of their operations.
-/

namespace PCBasic

/-! ## Pixel buffer (`pixels.py`)

`PixelPage._buffer` is a `ByteMatrix` of `height` rows by `width` columns.
The `ByteMatrix` class is not among the sources; following the spec, it is
modelled as a dense grid of unsigned integer cells, defined on
`[0, height) × [0, width)`, indexed `grid y x`; accessing a cell outside
that domain raises, which `put_pixel`/`get_pixel` catch. -/

/-- Drawing-mode tokens `tk.PSET`, `tk.PRESET`, `tk.AND`, `tk.OR`, `tk.XOR`
used to select the combination operation of `put_rect`. -/
inductive OpToken where
  | pset
  | preset
  | opAnd
  | opOr
  | opXor
deriving Repr, DecidableEq

/-- `PixelPage`: one dense pixel grid with its dimensions and the bit mask
`(1 << bitsperpixel) - 1` computed in `PixelPage.__init__`. -/
structure PixelPage where
  grid : Int → Int → Nat
  width : Int
  height : Int
  mask : Nat

namespace PixelPage

/-- Construct a `PixelPage` as `PixelPage.__init__` does: a zeroed
`height × width` buffer and `mask = (1 << bitsperpixel) - 1`. -/
def init (width height : Int) (bitsperpixel : Nat) : PixelPage :=
  { grid := fun _ _ => 0
    width := width
    height := height
    mask := (1 <<< bitsperpixel) - 1 }

/-- Whether `(x, y)` is a cell of the grid (the domain on which the modelled
`ByteMatrix` indexing does not raise `IndexError`). -/
def inBounds (p : PixelPage) (x y : Int) : Prop :=
  0 ≤ x ∧ x < p.width ∧ 0 ≤ y ∧ y < p.height

instance (p : PixelPage) (x y : Int) : Decidable (p.inBounds x y) := by
  unfold inBounds; infer_instance

/-- `PixelPage._operations`: the token -> combination function table built by
`_init_operations`; each function combines the existing destination value
(first argument) with the supplied source value (second argument). -/
def operations (mask : Nat) : OpToken → Nat → Nat → Nat
  | .pset => fun _x y => y
  | .preset => fun _x y => y ^^^ mask
  | .opAnd => fun x y => x &&& y
  | .opOr => fun x y => x ||| y
  | .opXor => fun x y => x ^^^ y

/-- `PixelPage.put_pixel`: store `attr` at cell `(x, y)`; an out-of-range
index raises `IndexError`, which the method swallows, leaving the buffer
unchanged. -/
def put_pixel (p : PixelPage) (x y : Int) (attr : Nat) : PixelPage :=
  if p.inBounds x y then
    { p with grid := fun j i => if j = y ∧ i = x then attr else p.grid j i }
  else
    p

/-- `PixelPage.get_pixel`: return the cell value at `(x, y)`, or `0` when the
index is out of range (the `IndexError` branch). -/
def get_pixel (p : PixelPage) (x y : Int) : Nat :=
  if p.inBounds x y then p.grid y x else 0

/-- `PixelPage.put_rect`: combine the rectangle
`buffer[y0:y1+1, x0:x1+1]` elementwise with the same-shaped source `array`
(indexed from the rectangle's top-left corner) using the operation selected
by `operation_token`, and write the result back. Translated for rectangles
within the grid, where the Python slices select exactly the rectangle. -/
def put_rect (p : PixelPage) (x0 y0 x1 y1 : Int) (array : Int → Int → Nat)
    (operation_token : OpToken) : PixelPage :=
  { p with
    grid := fun j i =>
      if y0 ≤ j ∧ j ≤ y1 ∧ x0 ≤ i ∧ i ≤ x1 then
        operations p.mask operation_token (p.grid j i) (array (j - y0) (i - x0))
      else p.grid j i }

end PixelPage

/-! ## Text page storage (the `TextPage` contract)

`TextScreen` delegates character storage to a per-page `TextPage`, an
external collaborator whose code is not among the sources. Its operations
are modelled from the spec's `TextPage` contract and the descriptions of the
insert/delete/scroll algorithms; rows and columns are 1-based and the logical
length of a row (`row_length`, the row's `end`) counts its occupied prefix,
with blank cells beyond it. -/

/-- One screen row of the modelled `TextPage`: the character codes of its
`width` cells, its logical length, and its line-wrap flag. Character
attributes are not modelled: no claim mentions them. -/
structure Row where
  chars : List Nat
  rlen : Int
  wrap : Bool
deriving Repr, DecidableEq

/-- The blank character `b' '` used to clear cells. -/
def blankChar : Nat := 32

/-- A cleared row of the given width. -/
def blankRow (width : Int) : Row :=
  { chars := List.replicate width.toNat blankChar, rlen := 0, wrap := false }

/-- Modelled from the spec: the active `TextPage`, a char/wrap-flag/row-length
store indexed by 1-based row number. -/
structure Page where
  rows : Int → Row
  width : Int

namespace Page

/-- Replace one row of the page. -/
def update (p : Page) (row : Int) (f : Row → Row) : Page :=
  { p with rows := fun r => if r = row then f (p.rows r) else p.rows r }

/-- Modelled from the spec: `TextPage.put_char_attr(row, col, char, attr,
adjust_end)` stores `char` at column `col`; with `adjust_end` the row's
logical length grows to cover the column. -/
def put_char_attr (p : Page) (row col : Int) (c : Nat) (adjust_end : Bool) : Page :=
  p.update row fun r =>
    { r with
      chars := r.chars.set (col - 1).toNat c
      rlen := if adjust_end then max r.rlen col else r.rlen }

/-- Modelled from the spec: `TextPage.insert_char_attr(row, col, c, attr)`
inserts `c` at column `col`, shifts the remainder of the row right, grows
the logical length (capped at the width), and returns the character pushed
off the end of the row. -/
def insert_char_attr (p : Page) (row col : Int) (c : Nat) : Page × Nat :=
  let popped := (p.rows row).chars.getD (p.width.toNat - 1) blankChar
  (p.update row fun r =>
    { r with
      chars := (r.chars.take (col - 1).toNat ++ c :: r.chars.drop (col - 1).toNat).take p.width.toNat
      rlen := min (r.rlen + 1) p.width }, popped)

/-- Modelled from the spec: `TextPage.delete_char_attr(row, col, attr,
wrap_char_attr)` removes the cell at column `col`, shifts the rest of the
row left, and fills the vacated last cell with the pulled-in wrap character
when one is given (the row stays full) or with a blank (the logical length
shrinks by one). -/
def delete_char_attr (p : Page) (row col : Int) (wrap_char : Option Nat) : Page :=
  p.update row fun r =>
    { r with
      chars := (r.chars.take (col - 1).toNat ++ r.chars.drop ((col - 1).toNat + 1))
        ++ [wrap_char.getD blankChar]
      rlen := if wrap_char.isSome then r.rlen else r.rlen - 1 }

/-- Modelled from the spec: `TextPage.get_char(row, col)` returns the
character at column `col`; column indices below 1 clamp to the first cell. -/
def get_char (p : Page) (row col : Int) : Nat :=
  (p.rows row).chars.getD (col - 1).toNat blankChar

/-- `TextPage.row_length(row)`: the logical length of the row. -/
def row_length (p : Page) (row : Int) : Int := (p.rows row).rlen

/-- `TextPage.set_row_length(row, length)`. -/
def set_row_length (p : Page) (row len : Int) : Page :=
  p.update row fun r => { r with rlen := len }

/-- `TextPage.wraps(row)`: whether the row is wrap-connected to the next. -/
def wraps (p : Page) (row : Int) : Bool := (p.rows row).wrap

/-- `TextPage.set_wrap(row, wrap)`. -/
def set_wrap (p : Page) (row : Int) (wrap : Bool) : Page :=
  p.update row fun r => { r with wrap := wrap }

/-- Modelled from the spec: `TextPage.scroll_up(from_row, bottom, attr)`
shifts rows `from_row+1 .. bottom` up by one and clears the vacated bottom
row. -/
def scroll_up (p : Page) (from_row bottom : Int) : Page :=
  { p with rows := fun r =>
      if from_row ≤ r ∧ r ≤ bottom then
        if r < bottom then p.rows (r + 1) else blankRow p.width
      else p.rows r }

/-- Modelled from the spec: `TextPage.scroll_down(from_row, bottom, attr)`
shifts rows `from_row .. bottom-1` down by one and clears the vacated row
`from_row`; the newly inserted blank row continues a logical line when the
row above it wraps (the source insertion comment: "the newly added row
should wrap - TextBuffer.scroll_down takes care of this"). -/
def scroll_down (p : Page) (from_row bottom : Int) : Page :=
  { p with rows := fun r =>
      if from_row ≤ r ∧ r ≤ bottom then
        if r = from_row then { blankRow p.width with wrap := (p.rows (from_row - 1)).wrap }
        else p.rows (r - 1)
      else p.rows r }

/-- Modelled from the spec: `TextPage.find_start_of_line(row)` walks up
through wrap-connected rows to the first row of the logical line (the walk
is bounded by the number of rows above). -/
def find_start_of_line (p : Page) (row : Int) : Int :=
  go row.toNat row
where
  go : Nat → Int → Int
    | 0, r => r
    | fuel + 1, r => if (p.rows (r - 1)).wrap then go fuel (r - 1) else r

end Page

/-! ## Scroll area, cursor and text screen (`textscreen.py`) -/

/-- `ScrollArea`: the text viewport, with inclusive 1-based `top`/`bottom`
bounds, the `active` flag, and the screen height it was initialised with. -/
structure ScrollArea where
  top : Int
  bottom : Int
  active : Bool
  height : Int
deriving Repr, DecidableEq

namespace ScrollArea

/-- `ScrollArea.set(start, stop)`: activate explicit bounds. -/
def set (sa : ScrollArea) (start stop : Int) : ScrollArea :=
  { sa with active := true, top := start, bottom := stop }

/-- `ScrollArea.unset()`: revert to `[1, height-1]` and mark inactive. -/
def unset (sa : ScrollArea) : ScrollArea :=
  { sa.set 1 (sa.height - 1) with active := false }

end ScrollArea

/-- The screen mode parameters the text screen reads. -/
structure Mode where
  width : Int
  height : Int
  is_text_mode : Bool
deriving Repr, DecidableEq

/-- The state held behind the external cursor contract: position, visibility
and shape. -/
structure CursorState where
  row : Int
  col : Int
  visible : Bool
  shape_start : Int
  shape_stop : Int
deriving Repr, DecidableEq

/-- `TextScreen`: cursor position, overflow flag, the bottom-row escape flag
`_bottom_row_allowed`, viewport, mode, current attribute, the active page,
the cursor state, the bottom bar's visibility, and the pcjr/tandy
capability flag. -/
structure TextScreen where
  current_row : Int
  current_col : Int
  overflow : Bool
  bottom_row_allowed : Bool
  scroll_area : ScrollArea
  mode : Mode
  attr : Nat
  apage : Page
  cursor : CursorState
  bar_visible : Bool
  tandytext : Bool

namespace TextScreen

/-- `TextScreen._move_cursor`: set the current position and move the cursor
(the cursor-shape/attribute lookups of the rendering contract have no
observable effect modelled here beyond the cursor's position). -/
def move_cursor (s : TextScreen) (row col : Int) : TextScreen :=
  { s with
    current_row := row
    current_col := col
    cursor := { s.cursor with row := row, col := col } }

/-- `TextScreen.scroll(from_row)`: scroll the scroll region up by one row
starting at `from_row` (defaulting to the viewport top); the cursor row
moves up one when it was strictly below `from_row`. -/
def scroll (from_row : Option Int) (s : TextScreen) : TextScreen :=
  let fr := from_row.getD s.scroll_area.top
  let s1 := { s with apage := s.apage.scroll_up fr s.scroll_area.bottom }
  if s1.current_row > fr then s1.move_cursor (s1.current_row - 1) s1.current_col else s1

/-- `TextScreen.scroll_down(from_row)`: scroll the scroll region down by one
row starting at `from_row`; the cursor row moves down one when it was at or
below `from_row`. -/
def scroll_down (from_row : Int) (s : TextScreen) : TextScreen :=
  let s1 := { s with apage := s.apage.scroll_down from_row s.scroll_area.bottom }
  if s1.current_row ≥ from_row then s1.move_cursor (s1.current_row + 1) s1.current_col else s1

/-- The "see if we need to move to the next row / a row up" block of
`TextScreen.check_pos`: the single column correction applied when the column
has left `[1, width]`. -/
def col_fix (scroll_ok : Bool) (s : TextScreen) : TextScreen :=
  if s.current_col > s.mode.width then
    if s.current_row < s.scroll_area.bottom ∨ scroll_ok then
      { s with
        current_col := s.current_col - s.mode.width
        current_row := s.current_row + 1 }
    else { s with current_col := s.mode.width }
  else if s.current_col < 1 then
    if s.current_row > s.scroll_area.top then
      { s with
        current_col := s.current_col + s.mode.width
        current_row := s.current_row - 1 }
    else { s with current_col := 1 }
  else s

/-- The "see if we need to scroll" block of `TextScreen.check_pos`: clamp the
row to the viewport, scrolling up first when allowed and needed. -/
def row_fix (scroll_ok : Bool) (s : TextScreen) : TextScreen :=
  if s.current_row > s.scroll_area.bottom then
    let s1 := if scroll_ok then scroll none s else s
    { s1 with current_row := s1.scroll_area.bottom }
  else if s.current_row < s.scroll_area.top then
    { s with current_row := s.scroll_area.top }
  else s

/-- `TextScreen.check_pos`: correct the current position at the screen and
viewport boundaries (the bottom-row branch, then the column correction, then
the row clamp/scroll); returns the updated screen and the position-unchanged
flag the source returns. -/
def check_pos (scroll_ok : Bool) (s : TextScreen) : TextScreen × Bool :=
  let oldrow := s.current_row
  let oldcol := s.current_col
  if s.bottom_row_allowed ∧ s.current_row = s.mode.height then
    let c1 := min s.mode.width s.current_col
    let c2 := if c1 < 1 then c1 + 1 else c1
    (s.move_cursor s.current_row c2, c2 == oldcol)
  else
    let s1 := if s.bottom_row_allowed then { s with bottom_row_allowed := false } else s
    let s2 := row_fix scroll_ok (col_fix scroll_ok s1)
    (s2.move_cursor s2.current_row s2.current_col,
      (s2.current_row == oldrow) && (s2.current_col == oldcol))

/-- `TextScreen.set_pos`: set the current position, clearing `overflow`, then
run `check_pos`. -/
def set_pos (to_row to_col : Int) (scroll_ok : Bool) (s : TextScreen) : TextScreen :=
  (check_pos scroll_ok
    { s with overflow := false, current_row := to_row, current_col := to_col }).1

/-- `TextScreen._check_wrap`: wrap to the next row (optionally scrolling down
to make room) when the column has run past the width, or clamp the column on
the last physical row. -/
def check_wrap (do_scroll_down : Bool) (s : TextScreen) : TextScreen :=
  if s.current_col > s.mode.width then
    if s.current_row < s.mode.height then
      let s :=
        if do_scroll_down ∧ s.current_row < s.scroll_area.bottom then
          scroll_down (s.current_row + 1) s
        else s
      let s := { s with apage := s.apage.set_wrap s.current_row true }
      s.move_cursor (s.current_row + 1) 1
    else { s with current_col := s.mode.width }
  else s

/-- `TextScreen.write_char`: put one character at the current position; the
result also carries the (row, column) cell at which `put_char_attr` placed
it. -/
def write_char (char : Nat) (do_scroll_down : Bool) (s : TextScreen) :
    TextScreen × Int × Int :=
  let s :=
    if s.overflow then { s with current_col := s.current_col + 1, overflow := false } else s
  let s := check_wrap do_scroll_down s
  let s := (check_pos true s).1
  let place := (s.current_row, s.current_col)
  let s := { s with apage := s.apage.put_char_attr s.current_row s.current_col char true }
  let s :=
    if s.current_col < s.mode.width then { s with current_col := s.current_col + 1 }
    else { s with overflow := true }
  ((check_pos true s).1, place)

/-- `TextScreen._insert_at`: insert one halfwidth character at the given
position; the recursion across wrap-connected rows is bounded by `fuel`
(in the source, by the remaining screen rows). Returns the updated screen
and whether the character was inserted rather than dropped. -/
def insert_at : Nat → TextScreen → Int → Int → Nat → TextScreen × Bool
  | 0, s, _, _, _ => (s, false)
  | fuel + 1, s, row, col, c =>
    if s.apage.row_length row < s.mode.width then
      let pr := s.apage.insert_char_attr row col c
      let s := { s with apage := pr.1 }
      let s :=
        if s.apage.wraps row ∧ s.apage.row_length row = s.mode.width then
          scroll_down (row + 1) s
        else s
      (s, true)
    else
      let s :=
        if ¬ s.apage.wraps row ∧ row < s.scroll_area.bottom then
          let s := scroll_down (row + 1) s
          { s with apage := s.apage.set_wrap row true }
        else s
      if row ≥ s.scroll_area.bottom then
        if s.apage.find_start_of_line s.current_row ≤ s.scroll_area.top then (s, false)
        else
          let s := scroll none s
          let row := row - 1
          let pr := s.apage.insert_char_attr row col c
          let s := { s with apage := pr.1 }
          insert_at fuel s (row + 1) 1 pr.2
      else
        let pr := s.apage.insert_char_attr row col c
        let s := { s with apage := pr.1 }
        insert_at fuel s (row + 1) 1 pr.2

/-- `TextScreen._delete_at`: delete the halfwidth character at the given
position, re-flowing wrap-connected rows; the recursion is bounded by `fuel`
(in the source, by the remaining screen rows). -/
def delete_at : Nat → TextScreen → Int → Int → Bool → TextScreen
  | 0, s, _, _, _ => s
  | fuel + 1, s, row, col, remove_depleted =>
    if ¬ s.apage.wraps row then
      -- case 0
      if col > s.apage.row_length row then s
      else
        let s := { s with apage := s.apage.delete_char_attr row col none }
        if remove_depleted ∧ s.apage.row_length row = 0 then scroll (some row) s else s
    else if s.apage.row_length row = s.mode.width then
      -- case 1
      let wrap_char_attr : Option Nat :=
        if s.apage.row_length (row + 1) = 0 then none
        else some (s.apage.get_char (row + 1) 0)
      let s := { s with apage := s.apage.delete_char_attr row col wrap_char_attr }
      delete_at fuel s (row + 1) 1 true
    else if col < s.apage.row_length row then
      -- case 2a
      { s with apage := s.apage.delete_char_attr row col none }
    else if remove_depleted ∧ col = s.apage.row_length row then
      -- case 2b (ii)
      { s with apage := s.apage.delete_char_attr row col none }
    else if remove_depleted ∧ s.apage.row_length row = 0 then
      -- case 2b (iii)
      scroll (some row) s
    else
      -- case 2b (i): multi-character delete by looping over single columns
      ((List.range (s.mode.width + 1 - col).toNat).foldl
        (fun st k =>
          if st.1 then st
          else if st.2.apage.row_length (row + 1) = 0 then (true, st.2)
          else
            let wrap_char := st.2.apage.get_char (row + 1) 0
            let s2 :=
              { st.2 with apage := st.2.apage.put_char_attr row (col + (k : Int)) wrap_char true }
            (false, delete_at fuel s2 (row + 1) 1 true))
        (false, s)).2

/-! ### BASIC callbacks (`locate_`, `csrlin_`, `pos_`, `view_print_`)

Raised runtime errors become `Except.error` values carrying the error class
and the screen state at the moment of the raise. -/

/-- The illegal-function-call class of signaled runtime errors
(`error.throw_if` and `error.range_check` raise it by default). -/
inductive BasicError where
  | illegal_function_call
deriving Repr, DecidableEq

/-- `error.range_check(lo, hi, *args)` succeeds when every given (non-`None`)
argument lies in `[lo, hi]`. -/
def range_ok (lo hi : Int) (args : List (Option Int)) : Bool :=
  args.all fun a =>
    match a with
    | none => true
    | some v => decide (lo ≤ v ∧ v ≤ hi)

/-- The cursor-shape tail of `TextScreen.locate_`: validate and apply the
`start`/`stop` cursor-shape arguments (the shape only takes effect in text
mode). -/
def locate_shape (s : TextScreen) (start stop : Option Int) :
    Except (BasicError × TextScreen) TextScreen :=
  if start.isNone ∧ stop.isSome then .error (.illegal_function_call, s)
  else
    let stop := if stop.isNone then start else stop
    match start with
    | none => .ok s
    | some a =>
      if ¬ range_ok 0 31 [some a, stop] then .error (.illegal_function_call, s)
      else if s.mode.is_text_mode then
        .ok { s with cursor := { s.cursor with shape_start := a, shape_stop := stop.getD a } }
      else .ok s

/-- `TextScreen.locate_` (LOCATE): set cursor position, shape and visibility
from the up-to-five pre-parsed optional arguments. -/
def locate_ (s : TextScreen) (args : List (Option Int)) :
    Except (BasicError × TextScreen) TextScreen :=
  let args := args ++ List.replicate (5 - args.length) none
  let row := (args.getD 0 none).getD s.current_row
  let col := (args.getD 1 none).getD s.current_col
  let cursor := args.getD 2 none
  let start := args.getD 3 none
  let stop := args.getD 4 none
  if row = s.mode.height ∧ s.bar_visible then .error (.illegal_function_call, s)
  else if s.scroll_area.active ∧ ¬ range_ok s.scroll_area.top s.scroll_area.bottom [some row] then
    .error (.illegal_function_call, s)
  else if ¬ s.scroll_area.active ∧ ¬ range_ok 1 s.mode.height [some row] then
    .error (.illegal_function_call, s)
  else if ¬ range_ok 1 s.mode.width [some col] then .error (.illegal_function_call, s)
  else
    let s := if row = s.mode.height then { s with bottom_row_allowed := true } else s
    let s := set_pos row col false s
    match cursor with
    | some cv =>
      if ¬ range_ok 0 (if s.tandytext then 255 else 1) [some cv] then
        .error (.illegal_function_call, s)
      else locate_shape { s with cursor := { s.cursor with visible := cv != 0 } } start stop
    | none => locate_shape s start stop

/-- `TextScreen.csrlin_` (CSRLIN): the reported screen row, adjusted for the
deferred-wrap overflow state. -/
def csrlin_ (s : TextScreen) : Int :=
  if s.overflow ∧ s.current_col = s.mode.width ∧ s.current_row < s.scroll_area.bottom then
    s.current_row + 1
  else s.current_row

/-- `TextScreen.pos_` (POS): the reported screen column, adjusted for the
deferred-wrap overflow state. -/
def pos_ (s : TextScreen) : Int :=
  if s.current_col = s.mode.width ∧ s.overflow then 1 else s.current_col

/-- The Python-2 ordering used by the `stop < start` comparison in
`view_print_` (`None` compares below every integer). -/
def lt_py2 (a b : Option Int) : Bool :=
  match a, b with
  | none, none => false
  | none, some _ => true
  | some _, none => false
  | some x, some y => x < y

/-- `TextScreen.view_print_` (VIEW PRINT): set or reset the scroll region.
The statement parser supplies either both bounds or neither; with both
given, they are range-checked against the 24/25-line limit, the region is
set, and the cursor moves to its top-left corner with `overflow` cleared.
(The mixed one-bound case is unreachable from the parser and would store a
non-integer bound in the Python source; it is modelled as a no-op.) -/
def view_print_ (s : TextScreen) (start stop : Option Int) :
    Except (BasicError × TextScreen) TextScreen :=
  if start.isNone ∧ stop.isNone then
    .ok { s with scroll_area := s.scroll_area.unset }
  else
    let max_line : Int := if s.tandytext ∧ ¬ s.bar_visible then 25 else 24
    if ¬ range_ok 1 max_line [start, stop] then .error (.illegal_function_call, s)
    else if lt_py2 stop start then .error (.illegal_function_call, s)
    else
      match start with
      | some a =>
        let s := { s with scroll_area := s.scroll_area.set a (stop.getD a), overflow := false }
        .ok (s.move_cursor a 1)
      | none => .ok s

end TextScreen

end PCBasic

open PCBasic

/-! ## Concrete states used by witnesses and counterexamples -/

/-- A plain 80×25 text screen: viewport rows 1–24, cursor at home, no bottom
bar, not a pcjr/tandy machine. -/
def baseTS : PCBasic.TextScreen :=
  { current_row := 1
    current_col := 1
    overflow := false
    bottom_row_allowed := false
    scroll_area := { top := 1, bottom := 24, active := false, height := 25 }
    mode := { width := 80, height := 25, is_text_mode := true }
    attr := 7
    apage := { rows := fun _ => blankRow 80, width := 80 }
    cursor := { row := 1, col := 1, visible := true, shape_start := 0, shape_stop := 0 }
    bar_visible := false
    tandytext := false }

/-- An 80×25 screen with a tandy-style full-height viewport (VIEW PRINT 1 TO
25) and the cursor on the last cell of the bottom physical row. -/
def fullViewTS : PCBasic.TextScreen :=
  { baseTS with
    current_row := 25
    current_col := 80
    scroll_area := { top := 1, bottom := 25, active := true, height := 25 } }

/-- A 4-wide, 3-row screen (viewport rows 1–2) whose row 2 holds "abc" and
whose row 3 is full of "AAAA". -/
def smallRows : Int → PCBasic.Row := fun r =>
  if r = 2 then { chars := [97, 98, 99, 32], rlen := 3, wrap := false }
  else if r = 3 then { chars := [65, 65, 65, 65], rlen := 4, wrap := false }
  else blankRow 4
def smallTS : PCBasic.TextScreen :=
  { baseTS with
    mode := { width := 4, height := 3, is_text_mode := true }
    scroll_area := { top := 1, bottom := 2, active := false, height := 3 }
    apage := { rows := smallRows, width := 4 } }

/-- `baseTS` in the deferred-wrap state: cursor physically at (5, 80) with
`overflow` set. -/
def overflowTS : PCBasic.TextScreen :=
  { baseTS with current_row := 5, current_col := 80, overflow := true }

/-- `baseTS` with the cursor on the last cell of row 5 (no overflow yet). -/
def eolTS : PCBasic.TextScreen :=
  { baseTS with current_row := 5, current_col := 80 }

/-- `baseTS` with the bottom-row escape flag set while the cursor is away
from the bottom physical row. -/
def escTS : PCBasic.TextScreen :=
  { baseTS with current_row := 3, current_col := 10, bottom_row_allowed := true }

/-- `baseTS` with the function-key bottom bar visible. -/
def barTS : PCBasic.TextScreen := { baseTS with bar_visible := true }

/-- `smallTS` with row 2 additionally wrap-connected to row 3: a wrapping row
sitting exactly at the viewport bottom. -/
def smallWrapTS : PCBasic.TextScreen :=
  { smallTS with
    apage :=
      { rows := fun r =>
          if r = 2 then { chars := [97, 98, 99, 32], rlen := 3, wrap := true }
          else smallRows r
        width := 4 } }

/-! ## Frame and correction lemmas for the cursor state machine -/

namespace PCBasic

namespace TextScreen

@[simp] theorem scroll_current_col (fr : Option Int) (s : TextScreen) :
    (scroll fr s).current_col = s.current_col := by
  simp only [scroll, move_cursor]; split <;> rfl

@[simp] theorem scroll_overflow (fr : Option Int) (s : TextScreen) :
    (scroll fr s).overflow = s.overflow := by
  simp only [scroll, move_cursor]; split <;> rfl

@[simp] theorem scroll_bottom_row_allowed (fr : Option Int) (s : TextScreen) :
    (scroll fr s).bottom_row_allowed = s.bottom_row_allowed := by
  simp only [scroll, move_cursor]; split <;> rfl

@[simp] theorem scroll_mode (fr : Option Int) (s : TextScreen) :
    (scroll fr s).mode = s.mode := by
  simp only [scroll, move_cursor]; split <;> rfl

@[simp] theorem scroll_scroll_area (fr : Option Int) (s : TextScreen) :
    (scroll fr s).scroll_area = s.scroll_area := by
  simp only [scroll, move_cursor]; split <;> rfl

@[simp] theorem scroll_attr (fr : Option Int) (s : TextScreen) :
    (scroll fr s).attr = s.attr := by
  simp only [scroll, move_cursor]; split <;> rfl

@[simp] theorem scroll_bar_visible (fr : Option Int) (s : TextScreen) :
    (scroll fr s).bar_visible = s.bar_visible := by
  simp only [scroll, move_cursor]; split <;> rfl

@[simp] theorem scroll_tandytext (fr : Option Int) (s : TextScreen) :
    (scroll fr s).tandytext = s.tandytext := by
  simp only [scroll, move_cursor]; split <;> rfl

theorem scroll_current_row (fr : Option Int) (s : TextScreen) :
    (scroll fr s).current_row =
      if s.current_row > fr.getD s.scroll_area.top then s.current_row - 1
      else s.current_row := by
  simp only [scroll, move_cursor]; split <;> simp_all

@[simp] theorem scroll_down_current_col (fr : Int) (s : TextScreen) :
    (scroll_down fr s).current_col = s.current_col := by
  simp only [scroll_down, move_cursor]; split <;> rfl

@[simp] theorem scroll_down_overflow (fr : Int) (s : TextScreen) :
    (scroll_down fr s).overflow = s.overflow := by
  simp only [scroll_down, move_cursor]; split <;> rfl

@[simp] theorem scroll_down_bottom_row_allowed (fr : Int) (s : TextScreen) :
    (scroll_down fr s).bottom_row_allowed = s.bottom_row_allowed := by
  simp only [scroll_down, move_cursor]; split <;> rfl

@[simp] theorem scroll_down_mode (fr : Int) (s : TextScreen) :
    (scroll_down fr s).mode = s.mode := by
  simp only [scroll_down, move_cursor]; split <;> rfl

@[simp] theorem scroll_down_scroll_area (fr : Int) (s : TextScreen) :
    (scroll_down fr s).scroll_area = s.scroll_area := by
  simp only [scroll_down, move_cursor]; split <;> rfl

@[simp] theorem scroll_down_attr (fr : Int) (s : TextScreen) :
    (scroll_down fr s).attr = s.attr := by
  simp only [scroll_down, move_cursor]; split <;> rfl

@[simp] theorem scroll_down_bar_visible (fr : Int) (s : TextScreen) :
    (scroll_down fr s).bar_visible = s.bar_visible := by
  simp only [scroll_down, move_cursor]; split <;> rfl

@[simp] theorem scroll_down_tandytext (fr : Int) (s : TextScreen) :
    (scroll_down fr s).tandytext = s.tandytext := by
  simp only [scroll_down, move_cursor]; split <;> rfl

theorem scroll_down_current_row (fr : Int) (s : TextScreen) :
    (scroll_down fr s).current_row =
      if s.current_row ≥ fr then s.current_row + 1 else s.current_row := by
  simp only [scroll_down, move_cursor]; split <;> simp_all

@[simp] theorem move_cursor_current_row (s : TextScreen) (r c : Int) :
    (s.move_cursor r c).current_row = r := rfl

@[simp] theorem move_cursor_current_col (s : TextScreen) (r c : Int) :
    (s.move_cursor r c).current_col = c := rfl

@[simp] theorem move_cursor_overflow (s : TextScreen) (r c : Int) :
    (s.move_cursor r c).overflow = s.overflow := rfl

@[simp] theorem move_cursor_bottom_row_allowed (s : TextScreen) (r c : Int) :
    (s.move_cursor r c).bottom_row_allowed = s.bottom_row_allowed := rfl

@[simp] theorem move_cursor_mode (s : TextScreen) (r c : Int) :
    (s.move_cursor r c).mode = s.mode := rfl

@[simp] theorem move_cursor_scroll_area (s : TextScreen) (r c : Int) :
    (s.move_cursor r c).scroll_area = s.scroll_area := rfl

@[simp] theorem move_cursor_attr (s : TextScreen) (r c : Int) :
    (s.move_cursor r c).attr = s.attr := rfl

@[simp] theorem move_cursor_bar_visible (s : TextScreen) (r c : Int) :
    (s.move_cursor r c).bar_visible = s.bar_visible := rfl

@[simp] theorem move_cursor_tandytext (s : TextScreen) (r c : Int) :
    (s.move_cursor r c).tandytext = s.tandytext := rfl

@[simp] theorem move_cursor_apage (s : TextScreen) (r c : Int) :
    (s.move_cursor r c).apage = s.apage := rfl

@[simp] theorem col_fix_overflow (ok : Bool) (s : TextScreen) :
    (col_fix ok s).overflow = s.overflow := by
  simp only [col_fix]; split_ifs <;> rfl

@[simp] theorem col_fix_bottom_row_allowed (ok : Bool) (s : TextScreen) :
    (col_fix ok s).bottom_row_allowed = s.bottom_row_allowed := by
  simp only [col_fix]; split_ifs <;> rfl

@[simp] theorem col_fix_mode (ok : Bool) (s : TextScreen) :
    (col_fix ok s).mode = s.mode := by
  simp only [col_fix]; split_ifs <;> rfl

@[simp] theorem col_fix_scroll_area (ok : Bool) (s : TextScreen) :
    (col_fix ok s).scroll_area = s.scroll_area := by
  simp only [col_fix]; split_ifs <;> rfl

@[simp] theorem col_fix_attr (ok : Bool) (s : TextScreen) :
    (col_fix ok s).attr = s.attr := by
  simp only [col_fix]; split_ifs <;> rfl

@[simp] theorem col_fix_bar_visible (ok : Bool) (s : TextScreen) :
    (col_fix ok s).bar_visible = s.bar_visible := by
  simp only [col_fix]; split_ifs <;> rfl

@[simp] theorem col_fix_tandytext (ok : Bool) (s : TextScreen) :
    (col_fix ok s).tandytext = s.tandytext := by
  simp only [col_fix]; split_ifs <;> rfl

@[simp] theorem col_fix_apage (ok : Bool) (s : TextScreen) :
    (col_fix ok s).apage = s.apage := by
  simp only [col_fix]; split_ifs <;> rfl

/-- A column already inside `[1, width]` is not moved by the column
correction. -/
theorem col_fix_stable (ok : Bool) (s : TextScreen)
    (h1 : 1 ≤ s.current_col) (h2 : s.current_col ≤ s.mode.width) :
    col_fix ok s = s := by
  simp only [col_fix]; split_ifs <;> first | rfl | (exfalso; omega)

/-- One column correction brings a column from `[1-width, 2*width]` into
`[1, width]`. -/
theorem col_fix_col_bounds (ok : Bool) (s : TextScreen)
    (hw : 1 ≤ s.mode.width)
    (hlo : 1 - s.mode.width ≤ s.current_col) (hhi : s.current_col ≤ 2 * s.mode.width) :
    1 ≤ (col_fix ok s).current_col ∧ (col_fix ok s).current_col ≤ s.mode.width := by
  simp only [col_fix]; split_ifs <;> (try simp) <;> omega

@[simp] theorem row_fix_current_col (ok : Bool) (s : TextScreen) :
    (row_fix ok s).current_col = s.current_col := by
  simp only [row_fix]; split_ifs <;> simp

@[simp] theorem row_fix_overflow (ok : Bool) (s : TextScreen) :
    (row_fix ok s).overflow = s.overflow := by
  simp only [row_fix]; split_ifs <;> simp

@[simp] theorem row_fix_bottom_row_allowed (ok : Bool) (s : TextScreen) :
    (row_fix ok s).bottom_row_allowed = s.bottom_row_allowed := by
  simp only [row_fix]; split_ifs <;> simp

@[simp] theorem row_fix_mode (ok : Bool) (s : TextScreen) :
    (row_fix ok s).mode = s.mode := by
  simp only [row_fix]; split_ifs <;> simp

@[simp] theorem row_fix_scroll_area (ok : Bool) (s : TextScreen) :
    (row_fix ok s).scroll_area = s.scroll_area := by
  simp only [row_fix]; split_ifs <;> simp

@[simp] theorem row_fix_attr (ok : Bool) (s : TextScreen) :
    (row_fix ok s).attr = s.attr := by
  simp only [row_fix]; split_ifs <;> simp

@[simp] theorem row_fix_bar_visible (ok : Bool) (s : TextScreen) :
    (row_fix ok s).bar_visible = s.bar_visible := by
  simp only [row_fix]; split_ifs <;> simp

@[simp] theorem row_fix_tandytext (ok : Bool) (s : TextScreen) :
    (row_fix ok s).tandytext = s.tandytext := by
  simp only [row_fix]; split_ifs <;> simp

/-- A row already inside the viewport is not moved by the row clamp. -/
theorem row_fix_stable (ok : Bool) (s : TextScreen)
    (h3 : s.scroll_area.top ≤ s.current_row) (h4 : s.current_row ≤ s.scroll_area.bottom) :
    row_fix ok s = s := by
  simp only [row_fix]; split_ifs <;> first | rfl | (exfalso; omega)

/-- The row clamp always lands the row inside the viewport bounds. -/
theorem row_fix_row_bounds (ok : Bool) (s : TextScreen)
    (htb : s.scroll_area.top ≤ s.scroll_area.bottom) :
    s.scroll_area.top ≤ (row_fix ok s).current_row ∧
      (row_fix ok s).current_row ≤ s.scroll_area.bottom := by
  simp only [row_fix]; split_ifs <;> (try simp) <;> omega

/-- A row below the viewport bottom is clamped to the bottom. -/
theorem row_fix_clamp (ok : Bool) (s : TextScreen)
    (h3 : s.current_row > s.scroll_area.bottom) :
    (row_fix ok s).current_row = s.scroll_area.bottom := by
  simp only [row_fix]; split_ifs <;> (try simp) <;> omega

/-- The main (non-bottom-row) path of `check_pos`: clear the escape flag,
apply the column correction, then the row clamp, then move the cursor. -/
theorem check_pos_main (ok : Bool) (s : TextScreen)
    (h : ¬(s.bottom_row_allowed = true ∧ s.current_row = s.mode.height)) :
    (check_pos ok s).1 =
      (row_fix ok (col_fix ok { s with bottom_row_allowed := false })).move_cursor
        (row_fix ok (col_fix ok { s with bottom_row_allowed := false })).current_row
        (row_fix ok (col_fix ok { s with bottom_row_allowed := false })).current_col := by
  simp only [check_pos]
  rw [if_neg h]
  by_cases hb : s.bottom_row_allowed = true
  · simp only [hb]; rfl
  · have hb' : s.bottom_row_allowed = false := by
      revert hb; cases s.bottom_row_allowed <;> simp
    have hs : { s with bottom_row_allowed := false } = s := by
      cases s; simp_all
    simp only [hb']
    rw [hs]
    simp

/-- The bottom-row branch of `check_pos`. -/
theorem check_pos_bottom (ok : Bool) (s : TextScreen)
    (h : s.bottom_row_allowed = true ∧ s.current_row = s.mode.height) :
    (check_pos ok s).1 =
      s.move_cursor s.current_row
        (if min s.mode.width s.current_col < 1 then min s.mode.width s.current_col + 1
         else min s.mode.width s.current_col) := by
  simp only [check_pos]
  rw [if_pos h]

@[simp] theorem check_pos_overflow (ok : Bool) (s : TextScreen) :
    ((check_pos ok s).1).overflow = s.overflow := by
  by_cases hc : s.bottom_row_allowed = true ∧ s.current_row = s.mode.height
  · rw [check_pos_bottom ok s hc]; rfl
  · rw [check_pos_main ok s hc]; simp

@[simp] theorem check_pos_mode (ok : Bool) (s : TextScreen) :
    ((check_pos ok s).1).mode = s.mode := by
  by_cases hc : s.bottom_row_allowed = true ∧ s.current_row = s.mode.height
  · rw [check_pos_bottom ok s hc]; rfl
  · rw [check_pos_main ok s hc]; simp

@[simp] theorem check_pos_scroll_area (ok : Bool) (s : TextScreen) :
    ((check_pos ok s).1).scroll_area = s.scroll_area := by
  by_cases hc : s.bottom_row_allowed = true ∧ s.current_row = s.mode.height
  · rw [check_pos_bottom ok s hc]; rfl
  · rw [check_pos_main ok s hc]; simp

@[simp] theorem check_pos_attr (ok : Bool) (s : TextScreen) :
    ((check_pos ok s).1).attr = s.attr := by
  by_cases hc : s.bottom_row_allowed = true ∧ s.current_row = s.mode.height
  · rw [check_pos_bottom ok s hc]; rfl
  · rw [check_pos_main ok s hc]; simp

@[simp] theorem check_pos_bar_visible (ok : Bool) (s : TextScreen) :
    ((check_pos ok s).1).bar_visible = s.bar_visible := by
  by_cases hc : s.bottom_row_allowed = true ∧ s.current_row = s.mode.height
  · rw [check_pos_bottom ok s hc]; rfl
  · rw [check_pos_main ok s hc]; simp

@[simp] theorem check_pos_tandytext (ok : Bool) (s : TextScreen) :
    ((check_pos ok s).1).tandytext = s.tandytext := by
  by_cases hc : s.bottom_row_allowed = true ∧ s.current_row = s.mode.height
  · rw [check_pos_bottom ok s hc]; rfl
  · rw [check_pos_main ok s hc]; simp

/-- The bottom-row escape flag survives `check_pos` exactly when it was set
and the cursor sat on the bottom physical row. -/
theorem check_pos_flag (ok : Bool) (s : TextScreen) :
    ((check_pos ok s).1).bottom_row_allowed = true ↔
      (s.bottom_row_allowed = true ∧ s.current_row = s.mode.height) := by
  by_cases hc : s.bottom_row_allowed = true ∧ s.current_row = s.mode.height
  · rw [check_pos_bottom ok s hc]; simp [hc.1, hc.2, move_cursor]
  · rw [check_pos_main ok s hc]; simp [hc]

theorem check_pos_flag_false (ok : Bool) (s : TextScreen)
    (h : s.bottom_row_allowed = false) :
    ((check_pos ok s).1).bottom_row_allowed = false := by
  rcases hf : ((check_pos ok s).1).bottom_row_allowed with _ | _
  · rfl
  · exact absurd ((check_pos_flag ok s).mp hf).1 (by simp [h])

/-- Projection form of `col_fix_stable`. -/
theorem col_fix_current_col_stable (ok : Bool) (s : TextScreen)
    (h1 : 1 ≤ s.current_col) (h2 : s.current_col ≤ s.mode.width) :
    (col_fix ok s).current_col = s.current_col := by
  rw [col_fix_stable ok s h1 h2]

/-- A column already inside `[1, width]` is not moved by `check_pos`. -/
theorem check_pos_col_stable (ok : Bool) (s : TextScreen)
    (h1 : 1 ≤ s.current_col) (h2 : s.current_col ≤ s.mode.width) :
    ((check_pos ok s).1).current_col = s.current_col := by
  by_cases hc : s.bottom_row_allowed = true ∧ s.current_row = s.mode.height
  · rw [check_pos_bottom ok s hc]
    simp only [move_cursor_current_col]
    split_ifs <;> omega
  · rw [check_pos_main ok s hc]
    simp only [move_cursor_current_col, row_fix_current_col]
    exact col_fix_current_col_stable ok _ h1 h2

/-- A position already inside the viewport is not moved by `check_pos` when
the bottom-row escape is off. -/
theorem check_pos_row_stable (ok : Bool) (s : TextScreen)
    (hf : s.bottom_row_allowed = false)
    (h1 : 1 ≤ s.current_col) (h2 : s.current_col ≤ s.mode.width)
    (h3 : s.scroll_area.top ≤ s.current_row) (h4 : s.current_row ≤ s.scroll_area.bottom) :
    ((check_pos ok s).1).current_row = s.current_row := by
  have hc : ¬(s.bottom_row_allowed = true ∧ s.current_row = s.mode.height) := by simp [hf]
  rw [check_pos_main ok s hc]
  simp only [move_cursor_current_row]
  rw [col_fix_stable ok { s with bottom_row_allowed := false } h1 h2,
    row_fix_stable ok { s with bottom_row_allowed := false } h3 h4]

/-- With the bottom-row escape off, `check_pos` always lands the row inside
the viewport bounds. -/
theorem check_pos_row_bounds (ok : Bool) (s : TextScreen)
    (hf : s.bottom_row_allowed = false)
    (htb : s.scroll_area.top ≤ s.scroll_area.bottom) :
    s.scroll_area.top ≤ ((check_pos ok s).1).current_row ∧
      ((check_pos ok s).1).current_row ≤ s.scroll_area.bottom := by
  have hc : ¬(s.bottom_row_allowed = true ∧ s.current_row = s.mode.height) := by simp [hf]
  rw [check_pos_main ok s hc]
  simp only [move_cursor_current_row]
  have := row_fix_row_bounds ok (col_fix ok { s with bottom_row_allowed := false })
    (by simpa using htb)
  simpa using this

/-- With the bottom-row escape off and the column in range, a row below the
viewport bottom is clamped to the bottom (scrolling up first when allowed). -/
theorem check_pos_row_clamp (ok : Bool) (s : TextScreen)
    (hf : s.bottom_row_allowed = false)
    (h1 : 1 ≤ s.current_col) (h2 : s.current_col ≤ s.mode.width)
    (h3 : s.current_row > s.scroll_area.bottom) :
    ((check_pos ok s).1).current_row = s.scroll_area.bottom := by
  have hc : ¬(s.bottom_row_allowed = true ∧ s.current_row = s.mode.height) := by simp [hf]
  rw [check_pos_main ok s hc]
  simp only [move_cursor_current_row]
  rw [col_fix_stable ok { s with bottom_row_allowed := false } h1 h2]
  exact row_fix_clamp ok _ h3

end TextScreen

end PCBasic

/-! ## Claim theorems -/

/-- C3 (counterexample to the claim as stated): with `bitsperpixel = 1` the
mask is `1`, yet `put_pixel (0,0) 2` stores the attribute unmasked, so
`get_pixel` returns `2` and not `2 &&& mask = 0`. -/
theorem pixel_roundtrip_cex :
    ¬ (((PCBasic.PixelPage.init 4 4 1).put_pixel 0 0 2).get_pixel 0 0
        = 2 &&& (PCBasic.PixelPage.init 4 4 1).mask) := by decide

/-- C3 (amended): for every in-bounds coordinate `(x, y)` and attribute `v`,
`put_pixel` then `get_pixel` returns `v` itself (the buffer stores
attributes unmasked); a `put_pixel` outside the grid leaves every cell
unchanged, and `get_pixel` on any out-of-range cell returns `0`. -/
theorem pixel_roundtrip_and_clipping (p : PCBasic.PixelPage) (x y : Int) (v : Nat) :
    (p.inBounds x y → (p.put_pixel x y v).get_pixel x y = v) ∧
    (¬ p.inBounds x y →
      (∀ j i : Int, (p.put_pixel x y v).grid j i = p.grid j i) ∧
      p.get_pixel x y = 0) := by
  constructor
  · intro h
    simp only [PCBasic.PixelPage.put_pixel, PCBasic.PixelPage.get_pixel, if_pos h]
    have h' : PCBasic.PixelPage.inBounds
        { p with grid := fun j i => if j = y ∧ i = x then v else p.grid j i } x y := h
    rw [if_pos h']
    simp
  · intro h
    refine ⟨fun j i => ?_, ?_⟩
    · simp only [PCBasic.PixelPage.put_pixel]
      rw [if_neg h]
    · simp only [PCBasic.PixelPage.get_pixel]
      rw [if_neg h]

/-- Witness for C3 (amended) at concrete inputs: an in-bounds round trip and
an out-of-bounds write/read. -/
theorem pixel_roundtrip_and_clipping_witness :
    (((PCBasic.PixelPage.init 4 4 2).put_pixel 1 2 3).get_pixel 1 2 = 3) ∧
    (((PCBasic.PixelPage.init 4 4 2).put_pixel 9 0 3).grid 0 0
      = (PCBasic.PixelPage.init 4 4 2).grid 0 0) ∧
    ((PCBasic.PixelPage.init 4 4 2).get_pixel 9 0 = 0) :=
  ⟨(pixel_roundtrip_and_clipping (PCBasic.PixelPage.init 4 4 2) 1 2 3).1 (by decide),
   ((pixel_roundtrip_and_clipping (PCBasic.PixelPage.init 4 4 2) 9 0 3).2 (by decide)).1 0 0,
   ((pixel_roundtrip_and_clipping (PCBasic.PixelPage.init 4 4 2) 9 0 3).2 (by decide)).2⟩

/-- C4: `put_rect` with the XOR operation applied twice with the same
same-shaped source array restores every cell of an in-bounds rectangle
(and of the whole buffer) to its original value. -/
theorem put_rect_xor_involution (p : PCBasic.PixelPage) (x0 y0 x1 y1 : Int)
    (array : Int → Int → Nat)
    (hx0 : 0 ≤ x0) (hx01 : x0 ≤ x1) (hx1 : x1 < p.width)
    (hy0 : 0 ≤ y0) (hy01 : y0 ≤ y1) (hy1 : y1 < p.height) :
    ∀ j i : Int,
      ((p.put_rect x0 y0 x1 y1 array .opXor).put_rect x0 y0 x1 y1 array .opXor).grid j i
        = p.grid j i := by
  intro j i
  simp only [PCBasic.PixelPage.put_rect, PCBasic.PixelPage.operations]
  split_ifs <;> simp [Nat.xor_cancel_right]

/-- Witness for C4 at a concrete page, rectangle and source array. -/
theorem put_rect_xor_involution_witness :
    (((PCBasic.PixelPage.init 4 4 2).put_rect 0 0 2 2 (fun _ _ => 3) .opXor).put_rect
        0 0 2 2 (fun _ _ => 3) .opXor).grid 1 1
      = (PCBasic.PixelPage.init 4 4 2).grid 1 1 :=
  put_rect_xor_involution (PCBasic.PixelPage.init 4 4 2) 0 0 2 2 (fun _ _ => 3)
    (by decide) (by decide) (by decide) (by decide) (by decide) (by decide) 1 1

/-- C7: when `overflow` is set and the column sits on the last cell, `pos_`
reports 1 and `csrlin_` reports the next row (except on the viewport's
bottom row); without `overflow` both report the raw position. -/
theorem pos_csrlin_overflow_report (s : PCBasic.TextScreen) :
    (s.overflow = true ∧ s.current_col = s.mode.width →
      PCBasic.TextScreen.pos_ s = 1 ∧
      PCBasic.TextScreen.csrlin_ s =
        (if s.current_row < s.scroll_area.bottom then s.current_row + 1
         else s.current_row)) ∧
    (s.overflow = false →
      PCBasic.TextScreen.pos_ s = s.current_col ∧
      PCBasic.TextScreen.csrlin_ s = s.current_row) := by
  unfold PCBasic.TextScreen.pos_ PCBasic.TextScreen.csrlin_
  constructor
  · rintro ⟨h1, h2⟩
    constructor
    · simp [h1, h2]
    · split_ifs <;> simp_all
  · intro h
    simp [h]

/-- Witness for C7: the deferred-wrap state at (5, 80) on an 80-wide screen
reports position (6, 1). -/
theorem pos_csrlin_overflow_report_witness :
    PCBasic.TextScreen.pos_ overflowTS = 1 ∧
    PCBasic.TextScreen.csrlin_ overflowTS =
      (if overflowTS.current_row < overflowTS.scroll_area.bottom then
        overflowTS.current_row + 1
       else overflowTS.current_row) :=
  (pos_csrlin_overflow_report overflowTS).1 (by decide)

/-- C9: the bottom-row escape flag is one-shot: any `check_pos` run with the
cursor away from the bottom physical row clears it, and the flag never
survives a `check_pos` call in which the cursor was not on the bottom row. -/
theorem bottom_row_flag_one_shot (ok : Bool) (s : PCBasic.TextScreen) :
    (s.current_row ≠ s.mode.height →
      ((PCBasic.TextScreen.check_pos ok s).1).bottom_row_allowed = false) ∧
    (((PCBasic.TextScreen.check_pos ok s).1).bottom_row_allowed = true →
      s.bottom_row_allowed = true ∧ s.current_row = s.mode.height) := by
  constructor
  · intro h
    rcases hf : ((PCBasic.TextScreen.check_pos ok s).1).bottom_row_allowed with _ | _
    · rfl
    · exact absurd ((PCBasic.TextScreen.check_pos_flag ok s).mp hf).2 h
  · exact (PCBasic.TextScreen.check_pos_flag ok s).mp

/-- Witness for C9: the flag set at row 3 of a 25-row screen is cleared by
`check_pos`. -/
theorem bottom_row_flag_one_shot_witness :
    ((PCBasic.TextScreen.check_pos true escTS).1).bottom_row_allowed = false :=
  (bottom_row_flag_one_shot true escTS).1 (by decide)

/-- C10: `scroll` and `scroll_down` preserve the cursor column and the
overflow flag (and the viewport, mode, bottom-row flag, attribute and bar
visibility); only the cursor row moves, by exactly one and only when the
cursor is below (resp. at or below) the starting row. -/
theorem scroll_frame_effect (s : PCBasic.TextScreen) (fr : Option Int) (frd : Int) :
    ((PCBasic.TextScreen.scroll fr s).current_col = s.current_col ∧
     (PCBasic.TextScreen.scroll fr s).overflow = s.overflow ∧
     (PCBasic.TextScreen.scroll fr s).current_row =
       (if s.current_row > fr.getD s.scroll_area.top then s.current_row - 1
        else s.current_row) ∧
     (PCBasic.TextScreen.scroll fr s).scroll_area = s.scroll_area ∧
     (PCBasic.TextScreen.scroll fr s).mode = s.mode ∧
     (PCBasic.TextScreen.scroll fr s).bottom_row_allowed = s.bottom_row_allowed ∧
     (PCBasic.TextScreen.scroll fr s).attr = s.attr ∧
     (PCBasic.TextScreen.scroll fr s).bar_visible = s.bar_visible) ∧
    ((PCBasic.TextScreen.scroll_down frd s).current_col = s.current_col ∧
     (PCBasic.TextScreen.scroll_down frd s).overflow = s.overflow ∧
     (PCBasic.TextScreen.scroll_down frd s).current_row =
       (if s.current_row ≥ frd then s.current_row + 1 else s.current_row) ∧
     (PCBasic.TextScreen.scroll_down frd s).scroll_area = s.scroll_area ∧
     (PCBasic.TextScreen.scroll_down frd s).mode = s.mode ∧
     (PCBasic.TextScreen.scroll_down frd s).bottom_row_allowed = s.bottom_row_allowed ∧
     (PCBasic.TextScreen.scroll_down frd s).attr = s.attr ∧
     (PCBasic.TextScreen.scroll_down frd s).bar_visible = s.bar_visible) := by
  refine ⟨⟨?_, ?_, ?_, ?_, ?_, ?_, ?_, ?_⟩, ⟨?_, ?_, ?_, ?_, ?_, ?_, ?_, ?_⟩⟩ <;>
    simp [PCBasic.TextScreen.scroll_current_row, PCBasic.TextScreen.scroll_down_current_row]

/-- C5: with both bounds given and in range, VIEW PRINT sets the scroll-area
bounds and relocates the cursor to the region's top-left corner; with no
arguments it resets the bounds to `(1, height-1)` and deactivates the
region; with `stop < start` (both in range) it raises the
illegal-function-call error. -/
theorem view_print_behaviour (s : PCBasic.TextScreen) (a b : Int)
    (hh : s.scroll_area.height = s.mode.height) :
    (1 ≤ a → a ≤ (if s.tandytext ∧ ¬ s.bar_visible then (25 : Int) else 24) →
     1 ≤ b → b ≤ (if s.tandytext ∧ ¬ s.bar_visible then (25 : Int) else 24) →
      (a ≤ b →
        ∃ t, PCBasic.TextScreen.view_print_ s (some a) (some b) = .ok t ∧
          t.scroll_area.top = a ∧ t.scroll_area.bottom = b ∧
          t.scroll_area.active = true ∧ t.current_row = a ∧ t.current_col = 1 ∧
          t.overflow = false) ∧
      (b < a →
        PCBasic.TextScreen.view_print_ s (some a) (some b) =
          .error (.illegal_function_call, s))) ∧
    (∃ t, PCBasic.TextScreen.view_print_ s none none = .ok t ∧
      t.scroll_area.top = 1 ∧ t.scroll_area.bottom = s.mode.height - 1 ∧
      t.scroll_area.active = false) := by
  constructor
  · intro h1 h2 h3 h4
    have hr : PCBasic.TextScreen.range_ok 1 (if s.tandytext ∧ ¬ s.bar_visible then (25 : Int) else 24)
        [some a, some b] = true := by
      simp only [PCBasic.TextScreen.range_ok, List.all_cons, List.all_nil, Bool.and_true,
        Bool.and_eq_true, decide_eq_true_eq]
      exact ⟨⟨h1, h2⟩, h3, h4⟩
    simp only [Bool.not_eq_true] at hr
    constructor
    · intro hab
      have hlt : PCBasic.TextScreen.lt_py2 (some b) (some a) = false := by
        simp only [PCBasic.TextScreen.lt_py2, decide_eq_false_iff_not]; omega
      refine ⟨({ s with scroll_area := s.scroll_area.set a b, overflow := false }).move_cursor
        a 1, ?_, ?_, ?_, ?_, ?_, ?_, ?_⟩
      · simp [PCBasic.TextScreen.view_print_, hr, hlt]
      · simp [PCBasic.ScrollArea.set]
      · simp [PCBasic.ScrollArea.set]
      · simp [PCBasic.ScrollArea.set]
      · simp
      · simp
      · simp
    · intro hba
      have hlt : PCBasic.TextScreen.lt_py2 (some b) (some a) = true := by
        simp only [PCBasic.TextScreen.lt_py2, decide_eq_true_eq]; omega
      simp [PCBasic.TextScreen.view_print_, hr, hlt]
  · refine ⟨{ s with scroll_area := s.scroll_area.unset }, ?_, ?_, ?_, ?_⟩
    · simp [PCBasic.TextScreen.view_print_]
    · simp [PCBasic.ScrollArea.unset, PCBasic.ScrollArea.set]
    · simp [PCBasic.ScrollArea.unset, PCBasic.ScrollArea.set, hh]
    · simp [PCBasic.ScrollArea.unset, PCBasic.ScrollArea.set]

/-- Witness for C5: VIEW PRINT 5,10 on the 80×25 screen, the reversed-bounds
error, and the no-argument reset. -/
theorem view_print_behaviour_witness :
    (∃ t, PCBasic.TextScreen.view_print_ baseTS (some 5) (some 10) = .ok t ∧
      t.scroll_area.top = 5 ∧ t.scroll_area.bottom = 10 ∧
      t.scroll_area.active = true ∧ t.current_row = 5 ∧ t.current_col = 1 ∧
      t.overflow = false) ∧
    (PCBasic.TextScreen.view_print_ baseTS (some 10) (some 5) =
      .error (.illegal_function_call, baseTS)) ∧
    (∃ t, PCBasic.TextScreen.view_print_ baseTS none none = .ok t ∧
      t.scroll_area.top = 1 ∧ t.scroll_area.bottom = baseTS.mode.height - 1 ∧
      t.scroll_area.active = false) :=
  ⟨((view_print_behaviour baseTS 5 10 rfl).1 (by decide) (by decide) (by decide)
      (by decide)).1 (by decide),
   ((view_print_behaviour baseTS 10 5 rfl).1 (by decide) (by decide) (by decide)
      (by decide)).2 (by decide),
   (view_print_behaviour baseTS 5 10 rfl).2⟩

/-- C6: a LOCATE call whose effective row is the bottom physical row while
the key bar is visible raises the illegal-function-call error before any
state mutation: the error carries the screen state unchanged. -/
theorem locate_bottom_row_error (s : PCBasic.TextScreen) (a1 a2 a3 a4 a5 : Option Int)
    (hbar : s.bar_visible = true)
    (hrow : a1.getD s.current_row = s.mode.height) :
    PCBasic.TextScreen.locate_ s [a1, a2, a3, a4, a5] =
      .error (.illegal_function_call, s) := by
  simp [PCBasic.TextScreen.locate_, hrow, hbar]

/-- Witness for C6: LOCATE 25 with the bar visible on the 80×25 screen. -/
theorem locate_bottom_row_error_witness :
    PCBasic.TextScreen.locate_ barTS [some 25, none, none, none, none] =
      .error (.illegal_function_call, barTS) :=
  locate_bottom_row_error barTS (some 25) none none none none (by decide) (by decide)

/-- C1 (counterexample to the claim as stated): on the 80×25 screen with
viewport 1–24 (precondition satisfied), `set_pos(1, 161)` runs `check_pos`,
which applies its single column correction once and leaves
`current_col = 81 > width` with the bottom-row flag off. -/
theorem check_pos_bounds_cex :
    (1 ≤ baseTS.scroll_area.top ∧ baseTS.scroll_area.top ≤ baseTS.scroll_area.bottom ∧
      baseTS.scroll_area.bottom ≤ baseTS.mode.height ∧ 1 ≤ baseTS.mode.width) ∧
    (PCBasic.TextScreen.set_pos 1 161 true baseTS).bottom_row_allowed = false ∧
    (PCBasic.TextScreen.set_pos 1 161 true baseTS).current_col = 81 ∧
    ¬ ((PCBasic.TextScreen.set_pos 1 161 true baseTS).current_col ≤ baseTS.mode.width) := by
  decide

/-- C1 (amended): after `check_pos`, provided additionally that the entry
column lies within one width of the valid range
(`1 - width ≤ col ≤ 2*width`, and `col ≥ 0` when the bottom-row escape
applies on the bottom row), the cursor obeys the bounds invariant: with the
flag off, `current_row ∈ [top, bottom]` and `current_col ∈ [1, width]`;
with the flag surviving, `current_row = height` and
`current_col ∈ [1, width]`. -/
theorem check_pos_bounds_invariant (ok : Bool) (s : PCBasic.TextScreen)
    (hpre1 : 1 ≤ s.scroll_area.top) (hpre2 : s.scroll_area.top ≤ s.scroll_area.bottom)
    (hpre3 : s.scroll_area.bottom ≤ s.mode.height) (hpre4 : 1 ≤ s.mode.width)
    (hclo : 1 - s.mode.width ≤ s.current_col) (hchi : s.current_col ≤ 2 * s.mode.width)
    (hbot : s.bottom_row_allowed = true → s.current_row = s.mode.height →
      0 ≤ s.current_col) :
    (((PCBasic.TextScreen.check_pos ok s).1).bottom_row_allowed = false →
      s.scroll_area.top ≤ ((PCBasic.TextScreen.check_pos ok s).1).current_row ∧
      ((PCBasic.TextScreen.check_pos ok s).1).current_row ≤ s.scroll_area.bottom ∧
      1 ≤ ((PCBasic.TextScreen.check_pos ok s).1).current_col ∧
      ((PCBasic.TextScreen.check_pos ok s).1).current_col ≤ s.mode.width) ∧
    (((PCBasic.TextScreen.check_pos ok s).1).bottom_row_allowed = true →
      ((PCBasic.TextScreen.check_pos ok s).1).current_row = s.mode.height ∧
      1 ≤ ((PCBasic.TextScreen.check_pos ok s).1).current_col ∧
      ((PCBasic.TextScreen.check_pos ok s).1).current_col ≤ s.mode.width) := by
  by_cases hc : s.bottom_row_allowed = true ∧ s.current_row = s.mode.height
  · have h0 : 0 ≤ s.current_col := hbot hc.1 hc.2
    rw [PCBasic.TextScreen.check_pos_bottom ok s hc]
    constructor
    · intro habs
      rw [PCBasic.TextScreen.move_cursor_bottom_row_allowed, hc.1] at habs
      exact absurd habs (by simp)
    · intro _
      refine ⟨by simp [hc.2], ?_, ?_⟩ <;>
        simp only [PCBasic.TextScreen.move_cursor_current_col, min_def] <;>
        split_ifs <;> omega
  · rw [PCBasic.TextScreen.check_pos_main ok s hc]
    have hcb := PCBasic.TextScreen.col_fix_col_bounds ok
      { s with bottom_row_allowed := false } hpre4 hclo hchi
    have hrb := PCBasic.TextScreen.row_fix_row_bounds ok
      (PCBasic.TextScreen.col_fix ok { s with bottom_row_allowed := false })
      (by simpa using hpre2)
    constructor
    · intro _
      refine ⟨by simpa using hrb.1, by simpa using hrb.2, by simpa using hcb.1,
        by simpa using hcb.2⟩
    · intro habs
      simp at habs

/-- Witness for C1 (amended) on the 80×25 screen at the home position. -/
theorem check_pos_bounds_invariant_witness :
    baseTS.scroll_area.top ≤ ((PCBasic.TextScreen.check_pos true baseTS).1).current_row ∧
    ((PCBasic.TextScreen.check_pos true baseTS).1).current_row ≤
      baseTS.scroll_area.bottom ∧
    1 ≤ ((PCBasic.TextScreen.check_pos true baseTS).1).current_col ∧
    ((PCBasic.TextScreen.check_pos true baseTS).1).current_col ≤ baseTS.mode.width :=
  (check_pos_bounds_invariant true baseTS (by decide) (by decide) (by decide) (by decide)
    (by decide) (by decide) (by decide)).1 (by decide)

namespace PCBasic

namespace TextScreen

@[simp] theorem check_wrap_overflow (d : Bool) (s : TextScreen) :
    (check_wrap d s).overflow = s.overflow := by
  simp only [check_wrap]; split_ifs <;> simp

@[simp] theorem check_wrap_bottom_row_allowed (d : Bool) (s : TextScreen) :
    (check_wrap d s).bottom_row_allowed = s.bottom_row_allowed := by
  simp only [check_wrap]; split_ifs <;> simp

@[simp] theorem check_wrap_mode (d : Bool) (s : TextScreen) :
    (check_wrap d s).mode = s.mode := by
  simp only [check_wrap]; split_ifs <;> simp

@[simp] theorem check_wrap_scroll_area (d : Bool) (s : TextScreen) :
    (check_wrap d s).scroll_area = s.scroll_area := by
  simp only [check_wrap]; split_ifs <;> simp

/-- When the column has passed the width and the cursor is above the bottom
physical row, `_check_wrap` moves to the start of the next row. -/
theorem check_wrap_pos (d : Bool) (s : TextScreen)
    (hcol : s.current_col > s.mode.width) (hrow : s.current_row < s.mode.height) :
    (check_wrap d s).current_row = s.current_row + 1 ∧
      (check_wrap d s).current_col = 1 := by
  simp only [check_wrap]
  rw [if_pos hcol, if_pos hrow]
  split_ifs with hd
  · constructor
    · simp only [move_cursor_current_row]
      have : (scroll_down (s.current_row + 1) s).current_row = s.current_row := by
        rw [scroll_down_current_row, if_neg (by omega)]
      simp [this]
    · simp
  · constructor <;> simp

end TextScreen

end PCBasic

namespace PCBasic

namespace TextScreen

/-- The repositioning behaviour of a `write_char` issued from the
deferred-wrap state (overflow set on the last column), with the cursor
inside the viewport and above the bottom physical row: the character is
placed at column 1 of the next row (or of the viewport bottom row after a
scroll), and `overflow` is clear afterwards. -/
theorem write_char_wrap_step (c : Nat) (d : Bool) (t : TextScreen)
    (hov : t.overflow = true) (hcol : t.current_col = t.mode.width)
    (hfl : t.bottom_row_allowed = false)
    (htop : t.scroll_area.top ≤ t.current_row)
    (hbot : t.current_row ≤ t.scroll_area.bottom)
    (hht : t.current_row < t.mode.height)
    (hw : 2 ≤ t.mode.width) :
    (write_char c d t).2 =
      ((if t.current_row < t.scroll_area.bottom then t.current_row + 1
        else t.scroll_area.bottom), 1) ∧
    (write_char c d t).1.overflow = false := by
  simp only [write_char, hov, ite_true]
  set A : TextScreen := { t with current_col := t.current_col + 1, overflow := false }
    with hA
  set z : TextScreen := check_wrap d A with hz
  have hzrow : z.current_row = t.current_row + 1 ∧ z.current_col = 1 := by
    rw [hz]
    exact check_wrap_pos d A (by rw [hA]; simp; omega) (by rw [hA]; simp; omega)
  have hzov : z.overflow = false := by rw [hz]; simp [hA]
  have hzfl : z.bottom_row_allowed = false := by rw [hz]; simp [hA, hfl]
  have hzm : z.mode = t.mode := by rw [hz]; simp [hA]
  have hzs : z.scroll_area = t.scroll_area := by rw [hz]; simp [hA]
  set u : TextScreen := (check_pos true z).1 with hu
  have hucol : u.current_col = 1 := by
    rw [hu, check_pos_col_stable true z (by omega) (by rw [hzrow.2, hzm]; omega)]
    exact hzrow.2
  have huov : u.overflow = false := by rw [hu, check_pos_overflow]; exact hzov
  have hum : u.mode = t.mode := by rw [hu, check_pos_mode]; exact hzm
  have hurow : u.current_row =
      (if t.current_row < t.scroll_area.bottom then t.current_row + 1
       else t.scroll_area.bottom) := by
    by_cases hlt : t.current_row < t.scroll_area.bottom
    · rw [if_pos hlt, hu,
        check_pos_row_stable true z hzfl (by omega) (by rw [hzrow.2, hzm]; omega)
          (by rw [hzrow.1, hzs]; omega) (by rw [hzrow.1, hzs]; omega)]
      exact hzrow.1
    · rw [if_neg hlt, hu,
        check_pos_row_clamp true z hzfl (by omega) (by rw [hzrow.2, hzm]; omega)
          (by rw [hzrow.1, hzs]; omega), hzs]
  constructor
  · simp [hurow, hucol]
  · have hlt2 : u.current_col < u.mode.width := by rw [hucol, hum]; omega
    rw [if_pos (by simpa using hlt2)]
    simp [huov]

end TextScreen

end PCBasic

namespace PCBasic

namespace TextScreen

/-- A `write_char` that places its character exactly on the last column sets
`overflow` and keeps the column on the last cell. -/
theorem write_char_place_width (c : Nat) (d : Bool) (s : TextScreen)
    (hw : 1 ≤ s.mode.width)
    (hplace : (write_char c d s).2.2 = s.mode.width) :
    (write_char c d s).1.overflow = true ∧
    (write_char c d s).1.current_col = s.mode.width := by
  simp only [write_char] at hplace ⊢
  set s0 : TextScreen :=
    (if s.overflow = true then { s with current_col := s.current_col + 1, overflow := false }
     else s) with hs0
  have hs0m : s0.mode = s.mode := by rw [hs0]; split_ifs <;> rfl
  set u : TextScreen := (check_pos true (check_wrap d s0)).1 with hu
  have hum : u.mode = s.mode := by
    rw [hu, check_pos_mode, check_wrap_mode, hs0m]
  set v : TextScreen :=
    { u with apage := u.apage.put_char_attr u.current_row u.current_col c true } with hv
  have hvcol : v.current_col = s.mode.width := by rw [hv]; exact hplace
  have hvm : v.mode = s.mode := by rw [hv]; exact hum
  have hite : ¬ (v.current_col < v.mode.width) := by rw [hvcol, hvm]; omega
  rw [if_neg hite]
  constructor
  · rw [check_pos_overflow]
  · rw [check_pos_col_stable true { v with overflow := true }
      (by show 1 ≤ v.current_col; rw [hvcol]; omega)
      (by show v.current_col ≤ v.mode.width; rw [hvcol, hvm])]
    exact hvcol

/-- `write_char` preserves the bottom-row flag (when clear), the mode and
the viewport, and leaves the cursor row inside the viewport bounds. -/
theorem write_char_state (c : Nat) (d : Bool) (s : TextScreen)
    (hfl : s.bottom_row_allowed = false)
    (htb : s.scroll_area.top ≤ s.scroll_area.bottom) :
    (write_char c d s).1.bottom_row_allowed = false ∧
    (write_char c d s).1.mode = s.mode ∧
    (write_char c d s).1.scroll_area = s.scroll_area ∧
    s.scroll_area.top ≤ (write_char c d s).1.current_row ∧
    (write_char c d s).1.current_row ≤ s.scroll_area.bottom := by
  simp only [write_char]
  set s0 : TextScreen :=
    (if s.overflow = true then { s with current_col := s.current_col + 1, overflow := false }
     else s) with hs0
  have hs0m : s0.mode = s.mode := by rw [hs0]; split_ifs <;> rfl
  have hs0f : s0.bottom_row_allowed = false := by rw [hs0]; split_ifs <;> exact hfl
  have hs0s : s0.scroll_area = s.scroll_area := by rw [hs0]; split_ifs <;> rfl
  set u : TextScreen := (check_pos true (check_wrap d s0)).1 with hu
  have hcwf : (check_wrap d s0).bottom_row_allowed = false := by
    rw [check_wrap_bottom_row_allowed]; exact hs0f
  have huf : u.bottom_row_allowed = false := by
    rw [hu]
    exact check_pos_flag_false true (check_wrap d s0) hcwf
  have hum : u.mode = s.mode := by rw [hu, check_pos_mode, check_wrap_mode, hs0m]
  have hus : u.scroll_area = s.scroll_area := by
    rw [hu, check_pos_scroll_area, check_wrap_scroll_area, hs0s]
  set v : TextScreen :=
    { u with apage := u.apage.put_char_attr u.current_row u.current_col c true } with hv
  set w : TextScreen :=
    (if v.current_col < v.mode.width then { v with current_col := v.current_col + 1 }
     else { v with overflow := true }) with hw
  have hwf : w.bottom_row_allowed = false := by
    rw [hw]; split_ifs <;> exact huf
  have hwm : w.mode = s.mode := by rw [hw]; split_ifs <;> exact hum
  have hws : w.scroll_area = s.scroll_area := by
    rw [hw]; split_ifs <;> exact hus
  refine ⟨?_, ?_, ?_, ?_, ?_⟩
  · exact check_pos_flag_false true w hwf
  · rw [check_pos_mode]; exact hwm
  · rw [check_pos_scroll_area]; exact hws
  · have := check_pos_row_bounds true w hwf (by rw [hws]; exact htb)
    rw [hws] at this; exact this.1
  · have := check_pos_row_bounds true w hwf (by rw [hws]; exact htb)
    rw [hws] at this; exact this.2

end TextScreen

end PCBasic

/-- C2 (counterexample to the claim as stated): with a tandy-style
full-height viewport (VIEW PRINT 1 TO 25) the cursor can sit on the bottom
physical row; a `write_char` there places its character exactly on column
80 and sets `overflow`, but the next `write_char` does not wrap: it places
its character at (25, 80) again and leaves `overflow` set. -/
theorem write_char_deferred_wrap_cex :
    (PCBasic.TextScreen.write_char 65 false fullViewTS).2 = (25, 80) ∧
    (PCBasic.TextScreen.write_char 65 false fullViewTS).1.overflow = true ∧
    (PCBasic.TextScreen.write_char 65 false fullViewTS).1.current_col = 80 ∧
    (PCBasic.TextScreen.write_char 66 false
      (PCBasic.TextScreen.write_char 65 false fullViewTS).1).2 = (25, 80) ∧
    (PCBasic.TextScreen.write_char 66 false
      (PCBasic.TextScreen.write_char 65 false fullViewTS).1).1.overflow = true := by
  decide

/-- C2 (amended): when a `write_char` places its character exactly on column
`width`, afterwards `overflow` is set and `current_col = width`; provided
the cursor is then above the bottom physical row (`current_row < height`),
the next `write_char` places its character at column 1 of the next row —
or of the viewport bottom row, after scrolling — with `overflow` cleared
before the character is placed and still clear afterwards. -/
theorem write_char_deferred_wrap (c1 c2 : Nat) (d1 d2 : Bool) (s : PCBasic.TextScreen)
    (htb : s.scroll_area.top ≤ s.scroll_area.bottom)
    (hw2 : 2 ≤ s.mode.width)
    (hfl : s.bottom_row_allowed = false)
    (hplace : (PCBasic.TextScreen.write_char c1 d1 s).2.2 = s.mode.width)
    (hrow : (PCBasic.TextScreen.write_char c1 d1 s).1.current_row < s.mode.height) :
    (PCBasic.TextScreen.write_char c1 d1 s).1.overflow = true ∧
    (PCBasic.TextScreen.write_char c1 d1 s).1.current_col = s.mode.width ∧
    (PCBasic.TextScreen.write_char c2 d2 (PCBasic.TextScreen.write_char c1 d1 s).1).2 =
      ((if (PCBasic.TextScreen.write_char c1 d1 s).1.current_row < s.scroll_area.bottom
        then (PCBasic.TextScreen.write_char c1 d1 s).1.current_row + 1
        else s.scroll_area.bottom), 1) ∧
    (PCBasic.TextScreen.write_char c2 d2
      (PCBasic.TextScreen.write_char c1 d1 s).1).1.overflow = false := by
  obtain ⟨hov, hcol⟩ :=
    PCBasic.TextScreen.write_char_place_width c1 d1 s (by omega) hplace
  obtain ⟨hfl1, hm1, hs1, htop1, hbot1⟩ :=
    PCBasic.TextScreen.write_char_state c1 d1 s hfl htb
  obtain ⟨hp2, hov2⟩ :=
    PCBasic.TextScreen.write_char_wrap_step c2 d2 (PCBasic.TextScreen.write_char c1 d1 s).1
      hov (by rw [hcol, hm1]) hfl1 (by rw [hs1]; exact htop1) (by rw [hs1]; exact hbot1)
      (by rw [hm1]; exact hrow) (by rw [hm1]; exact hw2)
  refine ⟨hov, hcol, ?_, hov2⟩
  rw [hp2, hs1]

/-- Witness for C2 (amended): writing at (5, 80) of the 80×25 screen, then
writing again. -/
theorem write_char_deferred_wrap_witness :
    (PCBasic.TextScreen.write_char 65 false eolTS).1.overflow = true ∧
    (PCBasic.TextScreen.write_char 65 false eolTS).1.current_col = eolTS.mode.width ∧
    (PCBasic.TextScreen.write_char 66 false
      (PCBasic.TextScreen.write_char 65 false eolTS).1).2 =
      ((if (PCBasic.TextScreen.write_char 65 false eolTS).1.current_row <
          eolTS.scroll_area.bottom
        then (PCBasic.TextScreen.write_char 65 false eolTS).1.current_row + 1
        else eolTS.scroll_area.bottom), 1) ∧
    (PCBasic.TextScreen.write_char 66 false
      (PCBasic.TextScreen.write_char 65 false eolTS).1).1.overflow = false :=
  write_char_deferred_wrap 65 66 false false eolTS (by decide) (by decide) (by decide)
    (by decide) (by decide)

namespace PCBasic

/-- A nonempty row whose last cell is blank equals its front part re-extended
with a blank. -/
theorem take_pred_append_blank (l : List Nat) (h : l ≠ [])
    (hl : l.getD (l.length - 1) blankChar = blankChar) :
    l.take (l.length - 1) ++ [blankChar] = l := by
  induction l with
  | nil => simp at h
  | cons a tl ih =>
    rcases tl with _ | ⟨b, tl2⟩
    · simp_all [blankChar]
    · have hl' : (b :: tl2).getD ((b :: tl2).length - 1) blankChar = blankChar := by
        simpa using hl
      have := ih (by simp) hl'
      simp only [List.length_cons, Nat.add_sub_cancel, List.take_succ_cons,
        List.cons_append] at this ⊢
      simpa using this

/-- Removing the just-inserted cell again and blank-filling the end restores
a row whose last cell was blank. -/
theorem insdel_chars (cs : List Nat) (i : Nat) (c : Nat)
    (hi : i < cs.length)
    (hlast : cs.getD (cs.length - 1) blankChar = blankChar) :
    ((((cs.take i ++ c :: cs.drop i).take cs.length).take i ++
      ((cs.take i ++ c :: cs.drop i).take cs.length).drop (i + 1)) ++ [blankChar]) = cs := by
  induction cs generalizing i with
  | nil => simp at hi
  | cons a tl ih =>
    cases i with
    | zero =>
      simp only [List.take_zero, List.drop_zero, List.nil_append, List.length_cons,
        List.take_succ_cons, List.drop_succ_cons]
      have h1 : (a :: tl) ≠ [] := by simp
      have := take_pred_append_blank (a :: tl) h1 hlast
      simpa using this
    | succ i =>
      have hi' : i < tl.length := by simpa using hi
      have hlast' : tl.getD (tl.length - 1) blankChar = blankChar := by
        rcases tl with _ | ⟨b, tl2⟩
        · simp at hi'
        · simpa using hlast
      have hrec := ih i hi' hlast'
      simp only [List.take_succ_cons, List.drop_succ_cons, List.length_cons,
        List.cons_append, List.append_assoc] at hrec ⊢
      simp [hrec]

end PCBasic

namespace PCBasic

namespace Page

@[simp] theorem update_width (p : Page) (row : Int) (f : Row → Row) :
    (p.update row f).width = p.width := rfl

@[simp] theorem insert_width (p : Page) (row col : Int) (c : Nat) :
    ((p.insert_char_attr row col c).1).width = p.width := rfl

@[simp] theorem delete_width (p : Page) (row col : Int) (wc : Option Nat) :
    (p.delete_char_attr row col wc).width = p.width := rfl

@[simp] theorem scroll_up_width (p : Page) (a b : Int) :
    (p.scroll_up a b).width = p.width := rfl

@[simp] theorem scroll_down_width (p : Page) (a b : Int) :
    (p.scroll_down a b).width = p.width := rfl

theorem insert_rows_self (p : Page) (row col : Int) (c : Nat) :
    ((p.insert_char_attr row col c).1).rows row =
      { chars := ((p.rows row).chars.take (col - 1).toNat ++
          c :: (p.rows row).chars.drop (col - 1).toNat).take p.width.toNat
        rlen := min ((p.rows row).rlen + 1) p.width
        wrap := (p.rows row).wrap } := by
  simp [insert_char_attr, update]

theorem insert_rows_other (p : Page) (row col : Int) (c : Nat) (r : Int) (h : r ≠ row) :
    ((p.insert_char_attr row col c).1).rows r = p.rows r := by
  simp [insert_char_attr, update, h]

theorem delete_rows_self (p : Page) (row col : Int) (wc : Option Nat) :
    (p.delete_char_attr row col wc).rows row =
      { chars := ((p.rows row).chars.take (col - 1).toNat ++
          (p.rows row).chars.drop ((col - 1).toNat + 1)) ++ [wc.getD blankChar]
        rlen := if wc.isSome then (p.rows row).rlen else (p.rows row).rlen - 1
        wrap := (p.rows row).wrap } := by
  simp [delete_char_attr, update]

theorem delete_rows_other (p : Page) (row col : Int) (wc : Option Nat) (r : Int)
    (h : r ≠ row) :
    (p.delete_char_attr row col wc).rows r = p.rows r := by
  simp [delete_char_attr, update, h]

theorem scroll_up_rows_lt (p : Page) (a b r : Int) (h : r < a) :
    (p.scroll_up a b).rows r = p.rows r := by
  simp only [scroll_up]
  rw [if_neg (by omega)]

theorem scroll_down_rows_lt (p : Page) (a b r : Int) (h : r < a) :
    (p.scroll_down a b).rows r = p.rows r := by
  simp only [scroll_down]
  rw [if_neg (by omega)]

theorem scroll_down_rows_from (p : Page) (a b : Int) (h : a ≤ b) :
    (p.scroll_down a b).rows a =
      { blankRow p.width with wrap := (p.rows (a - 1)).wrap } := by
  simp only [scroll_down]
  rw [if_pos (by omega)]
  simp

end Page

namespace TextScreen

theorem scroll_apage (fr : Option Int) (s : TextScreen) :
    (scroll fr s).apage =
      s.apage.scroll_up (fr.getD s.scroll_area.top) s.scroll_area.bottom := by
  simp only [scroll]; split_ifs <;> rfl

theorem scroll_down_apage (fr : Int) (s : TextScreen) :
    (scroll_down fr s).apage = s.apage.scroll_down fr s.scroll_area.bottom := by
  simp only [scroll_down]; split_ifs <;> rfl

end TextScreen

end PCBasic

/-- C8 (amended): inserting one halfwidth character at `(row, col)` of a row
with spare logical capacity and then deleting at the same position restores
the row's character contents and its logical length, provided the row's
cells beyond its logical end are blank, the page and mode widths agree, and
— when the row wraps and the insertion fills it exactly — the row lies
strictly above the scroll-area bottom. -/
theorem insert_delete_roundtrip (fuel : Nat) (s : PCBasic.TextScreen) (row col : Int)
    (c : Nat)
    (hw : 1 ≤ s.mode.width)
    (hpw : s.apage.width = s.mode.width)
    (hlen : ((s.apage.rows row).chars).length = s.mode.width.toNat)
    (hlast : (s.apage.rows row).chars.getD (s.mode.width.toNat - 1) blankChar = blankChar)
    (hrlen : (s.apage.rows row).rlen < s.mode.width)
    (hc1 : 1 ≤ col) (hc2 : col ≤ (s.apage.rows row).rlen)
    (hcase : (s.apage.rows row).wrap = true → (s.apage.rows row).rlen + 1 = s.mode.width →
      row < s.scroll_area.bottom) :
    ((TextScreen.delete_at (fuel + 2)
        (TextScreen.insert_at (fuel + 1) s row col c).1 row col false).apage.rows
        row).chars = (s.apage.rows row).chars ∧
    ((TextScreen.delete_at (fuel + 2)
        (TextScreen.insert_at (fuel + 1) s row col c).1 row col false).apage.rows
        row).rlen = (s.apage.rows row).rlen := by
  have hi : (col - 1).toNat < (s.apage.rows row).chars.length := by rw [hlen]; omega
  have hlast' : (s.apage.rows row).chars.getD ((s.apage.rows row).chars.length - 1)
      blankChar = blankChar := by rw [hlen]; exact hlast
  have hchars := insdel_chars (s.apage.rows row).chars (col - 1).toNat c hi hlast'
  have hmin : min ((s.apage.rows row).rlen + 1) s.apage.width =
      (s.apage.rows row).rlen + 1 := by
    rw [hpw]; exact min_eq_left (by omega)
  have hWn : s.apage.width.toNat = (s.apage.rows row).chars.length := by rw [hpw, hlen]
  have hP1 := Page.insert_rows_self s.apage row col c
  rw [hmin, hWn] at hP1
  have hrl1 : Page.row_length (s.apage.insert_char_attr row col c).1 row =
      (s.apage.rows row).rlen + 1 := by
    simp only [Page.row_length, hP1]
  have hwr1 : Page.wraps (s.apage.insert_char_attr row col c).1 row =
      (s.apage.rows row).wrap := by
    simp only [Page.wraps, hP1]
  by_cases hfullwrap : (s.apage.rows row).wrap = true ∧
      (s.apage.rows row).rlen + 1 = s.mode.width
  · -- the wrapping row is filled exactly: scroll_down makes room below
    have hbot : row < s.scroll_area.bottom := hcase hfullwrap.1 hfullwrap.2
    have hins : (TextScreen.insert_at (fuel + 1) s row col c).1 =
        TextScreen.scroll_down (row + 1)
          { s with apage := (s.apage.insert_char_attr row col c).1 } := by
      simp only [TextScreen.insert_at]
      rw [if_pos (show Page.row_length s.apage row < s.mode.width from hrlen)]
      rw [if_pos (by simp [hwr1, hrl1, hfullwrap.1, hfullwrap.2])]
    rw [hins]
    set SD : PCBasic.TextScreen := TextScreen.scroll_down (row + 1)
      { s with apage := (s.apage.insert_char_attr row col c).1 } with hSD
    have hSDap : SD.apage = ((s.apage.insert_char_attr row col c).1).scroll_down (row + 1)
        s.scroll_area.bottom := by
      rw [hSD, TextScreen.scroll_down_apage]
    have hSDrow : SD.apage.rows row = (s.apage.insert_char_attr row col c).1.rows row := by
      rw [hSDap]; exact Page.scroll_down_rows_lt _ _ _ _ (by omega)
    have hSDnext : SD.apage.rows (row + 1) =
        { blankRow ((s.apage.insert_char_attr row col c).1).width with
          wrap := ((s.apage.insert_char_attr row col c).1.rows (row + 1 - 1)).wrap } := by
      rw [hSDap]; exact Page.scroll_down_rows_from _ _ _ (by omega)
    have hSDnext' : SD.apage.rows (row + 1) =
        { blankRow s.apage.width with wrap := (s.apage.rows row).wrap } := by
      rw [hSDnext]
      have : row + 1 - 1 = row := by omega
      rw [this, hP1]
      simp
    have hSDm : SD.mode = s.mode := by rw [hSD, TextScreen.scroll_down_mode]
    have hSDs : SD.scroll_area = s.scroll_area := by
      rw [hSD, TextScreen.scroll_down_scroll_area]
    have hSDwr : Page.wraps SD.apage row = true := by
      simp only [Page.wraps, hSDrow, hP1]; exact hfullwrap.1
    have hSDrl : Page.row_length SD.apage row = s.mode.width := by
      simp only [Page.row_length, hSDrow, hP1]; exact hfullwrap.2
    have hSDrl2 : Page.row_length SD.apage (row + 1) = 0 := by
      simp only [Page.row_length, hSDnext']; rfl
    -- the delete: case 1 with an empty next row, then removal of that row
    simp only [TextScreen.delete_at]
    rw [if_neg (by simp [hSDwr])]
    rw [if_pos (show SD.apage.row_length row = SD.mode.width from by rw [hSDrl, hSDm])]
    rw [if_pos (show SD.apage.row_length (row + 1) = 0 from hSDrl2)]
    set T : PCBasic.TextScreen :=
      { SD with apage := SD.apage.delete_char_attr row col none } with hT
    have hTrow : T.apage.rows row =
        { chars := (((s.apage.rows row).chars.take (col - 1).toNat ++
            c :: (s.apage.rows row).chars.drop (col - 1).toNat).take
              (s.apage.rows row).chars.length).take (col - 1).toNat ++
            ((((s.apage.rows row).chars.take (col - 1).toNat ++
            c :: (s.apage.rows row).chars.drop (col - 1).toNat).take
              (s.apage.rows row).chars.length).drop ((col - 1).toNat + 1)) ++ [blankChar]
          rlen := (s.apage.rows row).rlen + 1 - 1
          wrap := (s.apage.rows row).wrap } := by
      rw [hT]
      show (SD.apage.delete_char_attr row col none).rows row = _
      rw [Page.delete_rows_self, hSDrow, hP1]
      simp [List.append_assoc]
    have hTwr1 : Page.wraps T.apage (row + 1) = true := by
      rw [hT]
      show Page.wraps (SD.apage.delete_char_attr row col none) (row + 1) = true
      simp only [Page.wraps]
      rw [Page.delete_rows_other _ _ _ _ _ (by omega), hSDnext']
      exact hfullwrap.1
    have hTrl1 : Page.row_length T.apage (row + 1) = 0 := by
      rw [hT]
      show Page.row_length (SD.apage.delete_char_attr row col none) (row + 1) = 0
      simp only [Page.row_length]
      rw [Page.delete_rows_other _ _ _ _ _ (by omega), hSDnext']
      rfl
    have hTm : T.mode = s.mode := by rw [hT]; exact hSDm
    -- inner delete on the empty inserted row scrolls it away
    rw [if_neg (by simp [hTwr1])]
    rw [if_neg (by rw [hTrl1, hTm]; omega)]
    rw [if_neg (by rw [hTrl1]; omega)]
    rw [if_neg (by rw [hTrl1]; simp)]
    rw [if_pos (by rw [hTrl1]; simp)]
    -- the final scroll does not touch rows above row+1
    have hfin : (TextScreen.scroll (some (row + 1)) T).apage.rows row =
        T.apage.rows row := by
      rw [TextScreen.scroll_apage]
      exact Page.scroll_up_rows_lt _ _ _ _ (by simp)
    rw [hfin, hTrow]
    constructor
    · simpa using hchars
    · simp
  · -- no scroll_down: the insertion leaves the row in place
    have hins : (TextScreen.insert_at (fuel + 1) s row col c).1 =
        { s with apage := (s.apage.insert_char_attr row col c).1 } := by
      simp only [TextScreen.insert_at]
      rw [if_pos (show Page.row_length s.apage row < s.mode.width from hrlen)]
      rw [if_neg (by
        simp only [hwr1, hrl1]
        intro hcon
        exact hfullwrap ⟨by simpa using hcon.1, by simpa using hcon.2⟩)]
    rw [hins]
    set S1 : PCBasic.TextScreen :=
      { s with apage := (s.apage.insert_char_attr row col c).1 } with hS1
    have hS1wr : Page.wraps S1.apage row = (s.apage.rows row).wrap := hwr1
    have hS1rl : Page.row_length S1.apage row = (s.apage.rows row).rlen + 1 := hrl1
    have hTrow : (S1.apage.delete_char_attr row col none).rows row =
        { chars := (((s.apage.rows row).chars.take (col - 1).toNat ++
            c :: (s.apage.rows row).chars.drop (col - 1).toNat).take
              (s.apage.rows row).chars.length).take (col - 1).toNat ++
            ((((s.apage.rows row).chars.take (col - 1).toNat ++
            c :: (s.apage.rows row).chars.drop (col - 1).toNat).take
              (s.apage.rows row).chars.length).drop ((col - 1).toNat + 1)) ++ [blankChar]
          rlen := (s.apage.rows row).rlen + 1 - 1
          wrap := (s.apage.rows row).wrap } := by
      show ((S1.apage).delete_char_attr row col none).rows row = _
      rw [Page.delete_rows_self]
      show ({ chars := _, rlen := _, wrap := _ } : PCBasic.Row) = _
      rw [show S1.apage = (s.apage.insert_char_attr row col c).1 from rfl, hP1]
      simp [List.append_assoc]
    by_cases hwrap : (s.apage.rows row).wrap = true
    · -- a wrapping row not filled to the brim: delete case 2a
      have hnotfull : (s.apage.rows row).rlen + 1 ≠ s.mode.width := by
        intro h; exact hfullwrap ⟨hwrap, h⟩
      simp only [TextScreen.delete_at]
      rw [if_neg (by simp [hS1wr, hwrap])]
      rw [if_neg (by rw [hS1rl]; omega)]
      rw [if_pos (by rw [hS1rl]; omega)]
      rw [hTrow]
      constructor
      · simpa using hchars
      · simp
    · -- a non-wrapping row: delete case 0
      simp only [TextScreen.delete_at]
      rw [if_pos (by simp [hS1wr, hwrap])]
      rw [if_neg (by rw [hS1rl]; omega)]
      rw [if_neg (by simp)]
      rw [hTrow]
      constructor
      · simpa using hchars
      · simp

/-- C8 (counterexample to the claim as stated): row 2 of the small screen
wraps, sits exactly at the scroll-area bottom and has spare capacity
(length 3 of width 4). Inserting `'x'` at (2, 1) fills the row; the
matching delete then pulls a character from the full row below instead of a
blank, so neither the contents nor the length are restored. -/
theorem insert_delete_roundtrip_cex :
    (smallWrapTS.apage.rows 2).rlen = 3 ∧ smallWrapTS.mode.width = 4 ∧
    (smallWrapTS.apage.rows 2).chars = [97, 98, 99, 32] ∧
    ((PCBasic.TextScreen.delete_at 5
        (PCBasic.TextScreen.insert_at 5 smallWrapTS 2 1 120).1 2 1 false).apage.rows
        2).chars = [97, 98, 99, 65] ∧
    ((PCBasic.TextScreen.delete_at 5
        (PCBasic.TextScreen.insert_at 5 smallWrapTS 2 1 120).1 2 1 false).apage.rows
        2).rlen = 4 := by
  decide

/-- Witness for C8 (amended): the round trip at (2, 1) of the small
non-wrapping row. -/
theorem insert_delete_roundtrip_witness :
    ((PCBasic.TextScreen.delete_at 5
        (PCBasic.TextScreen.insert_at 4 smallTS 2 1 120).1 2 1 false).apage.rows
        2).chars = (smallTS.apage.rows 2).chars ∧
    ((PCBasic.TextScreen.delete_at 5
        (PCBasic.TextScreen.insert_at 4 smallTS 2 1 120).1 2 1 false).apage.rows
        2).rlen = (smallTS.apage.rows 2).rlen :=
  insert_delete_roundtrip 3 smallTS 2 1 120 (by decide) (by decide) (by decide)
    (by decide) (by decide) (by decide) (by decide) (by decide)
